import Mathlib

/-!
# Verification of `src/camera.c` (V4L2 camera viewer)

Shallow embedding of the camera program: the program state (`struct state`),
argument parsing (`parse_args`), session setup (`init`), the steady-state
frame loop (`render`, `handle_events`, the `main` loop) and teardown (`quit`).

Device and SDL behaviour (ioctl results, granted formats and buffer counts,
texture pitch, input events) is modelled by explicit oracles (`Device`,
`FrameEnv`, `Tick`): every external call's outcome is a field of the oracle,
and each call the program makes is recorded in a trace of `Act`s so that
ordering, counting and omission properties can be stated.

C machine integers are modelled as `Int` (C `int`) and `Nat` with explicit
`% 2^32` conversions (C `__u32`); C truncating division on `int` is
`Int.tdiv`.
-/

/-- `#define NUMBUFS 16` — the hard-coded requested buffer count. -/
def NUMBUFS : Nat := 16

/-- `V4L2_CAP_VIDEO_CAPTURE` capability bit (0x00000001). -/
def V4L2_CAP_VIDEO_CAPTURE : Nat := 0x00000001

/-- `V4L2_CAP_STREAMING` capability bit (0x04000000). -/
def V4L2_CAP_STREAMING : Nat := 0x04000000

/-- Conversion of a C `int` value to `__u32` (assignment to an unsigned
32-bit struct field): reduction modulo 2^32. -/
def toU32 (n : Int) : Nat := (n % (2 ^ 32 : Int)).toNat

/-- `struct args` from camera.c.  `videodevice` is an `Option` because the
parser can store the NULL pointer `argv[argc]` into it (`-d` as last
argument). -/
structure Args where
  videodevice : Option String
  width : Int
  height : Int
  fullscreen : Bool
  deriving Repr, DecidableEq

/-- Defaults set at the top of `parse_args`. -/
def defaultArgs : Args :=
  { videodevice := some "/dev/video0", width := 800, height := 600, fullscreen := false }

/-- `struct state` from camera.c, restricted to the fields the claims are
about.  `fmtWidth`/`fmtHeight` are `s->fmt.fmt.pix.width/height` (`__u32`);
`rbCount` is `s->rb.count`; `bufIndex`/`bufLength` are `s->buf.index` and
`s->buf.length`; `mem` records for each of the `NUMBUFS` slots of
`s->mem[]` whether it currently holds a live mapping; `window`, `renderer`,
`texture` record whether the SDL handle is non-NULL. -/
structure CState where
  fmtWidth : Nat
  fmtHeight : Nat
  rbCount : Nat
  bufIndex : Nat
  bufLength : Nat
  fd : Int
  mem : List Bool
  window : Bool
  renderer : Bool
  texture : Bool
  width : Int
  height : Int
  quit : Bool
  deriving Repr, DecidableEq

/-- `memset(s, 0, sizeof(struct state))` at the top of `init`. -/
def zeroState : CState :=
  { fmtWidth := 0, fmtHeight := 0, rbCount := 0, bufIndex := 0, bufLength := 0,
    fd := 0, mem := List.replicate NUMBUFS false,
    window := false, renderer := false, texture := false,
    width := 0, height := 0, quit := false }

/-- One external call made by the program, as recorded in the trace.
Result flags (`ok`, returned values) are the oracle's answers; the
constructor records both the call and its outcome. -/
inductive Act where
  | openDev (res : Int)
  | querycap (ok : Bool)
  | sFmt (w h : Nat) (ok : Bool)
  | reqbufs (count : Nat) (ok : Bool)
  | querybuf (i : Nat) (ok : Bool)
  | mmapBuf (i : Nat) (ok : Bool)
  | qbuf (i : Nat) (ok : Bool)
  | streamon (ok : Bool)
  | sdlInit (ok : Bool)
  | createWindowAndRenderer (w h : Int) (ok : Bool)
  | createTexture (w h : Int)
  | dqbuf (res : Option Nat)
  | lockTexture
  | copyMem (i : Nat) (bytes : Int)
  | unlockTexture
  | renderClear
  | renderCopy
  | renderPresent
  | streamoff (ok : Bool)
  | munmapBuf (i : Nat) (len : Nat)
  | closeFd (fd : Int)
  | destroyTexture
  | destroyRenderer
  | destroyWindow
  | sdlQuit
  | logErr (msg : String)
  deriving Repr, DecidableEq

/-- The device/SDL oracle consumed by `init` and `quit`: the outcome of each
external call the setup and teardown code makes.  `grantWidth`/`grantHeight`
document the format the device would grant for the negotiated request, and
`grantedBufs` is the count `VIDIOC_REQBUFS` writes back into `rb.count`. -/
structure Device where
  openRes : Int
  querycapOk : Bool
  capabilities : Nat
  sFmtOk : Bool
  grantWidth : Nat
  grantHeight : Nat
  reqbufsOk : Bool
  grantedBufs : Nat
  querybufOk : Nat → Bool
  bufLen : Nat → Nat
  mmapOk : Nat → Bool
  initQbufOk : Nat → Bool
  streamonOk : Bool
  sdlInitOk : Bool
  createWROk : Bool
  createTextureOk : Bool
  streamoffOk : Bool

/-- Per-frame oracle for one `render` call: the result of `VIDIOC_DQBUF`
(`none` = the ioctl failed, `some i` = buffer index `i` was dequeued, with
`dqLen` the length the kernel writes back), the pitch `SDL_LockTexture`
reports, and the result of the requeueing `VIDIOC_QBUF`. -/
structure FrameEnv where
  dqbufResult : Option Nat
  dqLen : Nat
  pitch : Int
  qbufOk : Bool

/-- SDL input events drained by `handle_events`. -/
inductive SdlEvent where
  | quitEv
  | keyDown (c : Char)
  | otherEv
  deriving Repr, DecidableEq

/-- One iteration of the main loop: the pending input events and the frame
oracle for this tick's `render` call. -/
structure Tick where
  events : List SdlEvent
  frame : FrameEnv

/-! ## Argument parsing (`parse_args`, camera.c lines 63-99)

`argv` is modelled as the list `argv[0], …, argv[argc-1]`; an access
`argv[i]` for `i = argc` yields `none`, modelling the NULL pointer the C
standard guarantees at `argv[argc]`.  Each fetch of a flag's value argument
and each `atoi` call is recorded as a `PEvent`. -/

/-- Events recorded while scanning the command line: `readArg i v` is the
fetch of `argv[i]` as a flag's value (`v = none` models reading the NULL
entry `argv[argc]`), `atoiCall v` is a call `atoi(v)` (`atoiCall none` is
`atoi(NULL)`). -/
inductive PEvent where
  | readArg (i : Nat) (v : Option String)
  | atoiCall (v : Option String)
  | logMsg (msg : String)
  | usageExit
  deriving Repr, DecidableEq

/-- `s[k]` on a C string: character at `k`, or the terminating NUL (modelled
as `Char.ofNat 0`) past the end. -/
def charAt (s : String) (k : Nat) : Char := s.data.getD k (Char.ofNat 0)

/-- C `isspace` in the default locale, as consumed by `atoi`. -/
def cIsSpace (c : Char) : Bool :=
  c = ' ' || c = '\t' || c = '\n' || c = Char.ofNat 11 || c = Char.ofNat 12 || c = '\r'

/-- Digit run of `atoi`: fold decimal digits, stop at the first non-digit. -/
def atoiDigits : List Char → Nat → Nat
  | [], acc => acc
  | c :: rest, acc =>
      if c.isDigit then atoiDigits rest (acc * 10 + (c.toNat - 48)) else acc

/-- `atoi` on the characters after leading whitespace: optional sign, then
digits. -/
def atoiSigned : List Char → Int
  | [] => 0
  | c :: rest =>
      if c = '-' then -(atoiDigits rest 0 : Int)
      else if c = '+' then (atoiDigits rest 0 : Int)
      else atoiDigits (c :: rest) 0

/-- C `atoi`: skip whitespace, optional sign, decimal digits.  Applied to
`none` (the NULL pointer) the C call is undefined; the model returns 0 there
and the `PEvent.atoiCall none` event records that the call happened. -/
def atoiC : Option String → Int
  | none => 0
  | some s => atoiSigned (s.data.dropWhile cIsSpace)

/-- The scanning loop of `parse_args` (camera.c lines 72-98).  `i` is the
loop index; `fuel` bounds the recursion (the C loop advances `i` by 1 or 2
each iteration).  Returns the parsed `Args`, the recorded events, and
whether `usage` (which calls `exit(0)`) was entered via `-h`. -/
def parseLoop (argv : List String) : Nat → Nat → Args → List PEvent → Args × List PEvent × Bool
  | 0, _, a, evs => (a, evs, false)
  | fuel + 1, i, a, evs =>
    if h : i < argv.length then
      let arg := argv.get ⟨i, h⟩
      if charAt arg 0 = '-' then
        if charAt arg 1 = 'd' then
          let v := argv.get? (i + 1)
          parseLoop argv fuel (i + 2) { a with videodevice := v }
            (evs ++ [PEvent.readArg (i + 1) v])
        else if charAt arg 1 = 'W' then
          let v := argv.get? (i + 1)
          parseLoop argv fuel (i + 2) { a with width := atoiC v }
            (evs ++ [PEvent.readArg (i + 1) v, PEvent.atoiCall v])
        else if charAt arg 1 = 'H' then
          let v := argv.get? (i + 1)
          parseLoop argv fuel (i + 2) { a with height := atoiC v }
            (evs ++ [PEvent.readArg (i + 1) v, PEvent.atoiCall v])
        else if charAt arg 1 = 'f' then
          parseLoop argv fuel (i + 1) { a with fullscreen := true } evs
        else if charAt arg 1 = 'h' then
          (a, evs ++ [PEvent.usageExit], true)
        else
          parseLoop argv fuel (i + 1) a (evs ++ [PEvent.logMsg "Unexpected flag"])
      else
        parseLoop argv fuel (i + 1) a (evs ++ [PEvent.logMsg "Unexpected argument"])
    else (a, evs, false)

/-- `parse_args` (camera.c lines 63-99): defaults, then the scan from
`i = 1`.  The fuel `argv.length + 1` dominates the number of iterations
since `i` strictly increases. -/
def parse_args (argv : List String) : Args × List PEvent × Bool :=
  parseLoop argv (argv.length + 1) 1 defaultArgs []

/-! ## Session setup (`init`, camera.c lines 101-240) -/

/-- The buffer query-and-map loop (camera.c lines 173-191).  The C loop runs
`for (i = 0; i < NUMBUFS; i++)` — `n` counts the remaining iterations and is
started at `NUMBUFS`, never at the granted count `rb.count`.  Each iteration
zeroes `s->buf` (`bufIndex`/`bufLength`), queries buffer `i`
(`VIDIOC_QUERYBUF`, which on success fills `buf.length`) and maps it.
Returns 0-result (`false`) as soon as one call fails, like the C `return 0`. -/
def mapBufsLoop (d : Device) : Nat → Nat → CState → List Act → CState × List Act × Bool
  | 0, _, s, tr => (s, tr, true)
  | n + 1, i, s, tr =>
    let s := { s with bufIndex := i, bufLength := 0 }
    if d.querybufOk i then
      let s := { s with bufLength := d.bufLen i }
      let tr := tr ++ [Act.querybuf i true]
      if d.mmapOk i then
        mapBufsLoop d n (i + 1) { s with mem := s.mem.set i true }
          (tr ++ [Act.mmapBuf i true])
      else
        (s, tr ++ [Act.mmapBuf i false, Act.logErr "Unable to map buffer"], false)
    else
      (s, tr ++ [Act.querybuf i false, Act.logErr "Unable to query buffer"], false)

/-- The initial queueing loop (camera.c lines 194-203), again iterating over
the constant `NUMBUFS`.  Each iteration zeroes `s->buf`, sets `buf.index := i`
and issues `VIDIOC_QBUF`; on success the kernel writes the buffer struct
back (filling `buf.length` with the buffer's length). -/
def queueBufsLoop (d : Device) : Nat → Nat → CState → List Act → CState × List Act × Bool
  | 0, _, s, tr => (s, tr, true)
  | n + 1, i, s, tr =>
    let s := { s with bufIndex := i, bufLength := 0 }
    if d.initQbufOk i then
      queueBufsLoop d n (i + 1) { s with bufLength := d.bufLen i }
        (tr ++ [Act.qbuf i true])
    else
      (s, tr ++ [Act.qbuf i false, Act.logErr "Unable to queue buffer"], false)

/-- `init` (camera.c lines 101-240).  Faithful to the source in two places a
correct program would differ:

* line 137 passes the format struct to `ioctl` **by value**
  (`ioctl(s->fd, VIDIOC_S_FMT, s->fmt)`, no `&`), so the callee receives a
  copy and the driver's granted width/height are never written back into
  `s->fmt`; the model therefore leaves `fmtWidth`/`fmtHeight` at the
  requested values, and whether this malformed ioctl call reports success is
  the oracle's `sFmtOk`.  The read-back branch of lines 144-156 is
  translated verbatim below and consequently compares the request with
  itself.
* the buffer loops iterate over `NUMBUFS`, not over the granted
  `rb.count` (see `mapBufsLoop`/`queueBufsLoop`).

`init` is split into one function per code block, sequenced by `initP`
exactly as the C early-`return 0`s sequence the blocks; each returns the
state, the accumulated trace, and the C return value (`true` = 1,
`false` = 0).  This first block is the `memset` and `open` of lines
103-111. -/
def initOpen (d : Device) : CState × List Act × Bool :=
  let s := { zeroState with fd := d.openRes }
  let tr := [Act.openDev d.openRes]
  if d.openRes < 0 then (s, tr ++ [Act.logErr "perror videodevice"], false)
  else (s, tr, true)

/-- Capability query and the two capability-bit checks (lines 113-127). -/
def initCaps (d : Device) (s : CState) (tr : List Act) : CState × List Act × Bool :=
  let tr := tr ++ [Act.querycap d.querycapOk]
  if ¬ d.querycapOk then (s, tr ++ [Act.logErr "Failed to open device"], false)
  else if Nat.land d.capabilities V4L2_CAP_VIDEO_CAPTURE = 0 then
    (s, tr ++ [Act.logErr "does not support video capture"], false)
  else if Nat.land d.capabilities V4L2_CAP_STREAMING = 0 then
    (s, tr ++ [Act.logErr "does not support streaming"], false)
  else (s, tr, true)

/-- Format negotiation (lines 129-160): fill `s->fmt` with the request,
issue the by-value `VIDIOC_S_FMT` (no write-back possible), run the
read-back branch of lines 144-156 verbatim (its comparison therefore sees
the request against itself), and record the resolution in
`s->width`/`s->height`.  Also returns the possibly-updated `args`. -/
def initFormat (d : Device) (a0 : Args) (s : CState) (tr : List Act) :
    Args × CState × List Act × Bool :=
  let s := { s with fmtWidth := toU32 a0.width, fmtHeight := toU32 a0.height }
  let tr := tr ++ [Act.sFmt s.fmtWidth s.fmtHeight d.sFmtOk]
  if ¬ d.sFmtOk then (a0, s, tr ++ [Act.logErr "cannot set format"], false)
  else
    let step :=
      if s.fmtWidth != toU32 a0.width || s.fmtHeight != toU32 a0.height then
        ({ a0 with width := (s.fmtWidth : Int), height := (s.fmtHeight : Int) },
         tr ++ [Act.logErr "Requested resolution is not available"])
      else (a0, tr)
    let s := { s with width := step.1.width, height := step.1.height }
    (step.1, s, step.2, true)

/-- Buffer request (lines 162-170): ask for `NUMBUFS` mmap buffers; on
success the kernel writes the granted count back into `rb.count`. -/
def initReqbufs (d : Device) (s : CState) (tr : List Act) : CState × List Act × Bool :=
  let s := { s with rbCount := NUMBUFS }
  let tr := tr ++ [Act.reqbufs NUMBUFS d.reqbufsOk]
  if ¬ d.reqbufsOk then (s, tr ++ [Act.logErr "Unable to allocate buffers"], false)
  else ({ s with rbCount := d.grantedBufs }, tr, true)

/-- `VIDIOC_STREAMON` (lines 205-210). -/
def initStream (d : Device) (s : CState) (tr : List Act) : CState × List Act × Bool :=
  let tr := tr ++ [Act.streamon d.streamonOk]
  if ¬ d.streamonOk then (s, tr ++ [Act.logErr "Unable to start capture"], false)
  else (s, tr, true)

/-- SDL setup (lines 212-239): `SDL_Init`, window+renderer, and the texture
creation whose result is never checked (line 234) — `init` returns 1 even
when `SDL_CreateTexture` yields NULL. -/
def initSdl (d : Device) (s : CState) (tr : List Act) : CState × List Act × Bool :=
  let tr := tr ++ [Act.sdlInit d.sdlInitOk]
  if ¬ d.sdlInitOk then (s, tr ++ [Act.logErr "SDL_Init"], false)
  else
    let tr := tr ++ [Act.createWindowAndRenderer s.width s.height d.createWROk]
    if ¬ d.createWROk then
      (s, tr ++ [Act.logErr "SDL_CreateWindowAndRenderer"], false)
    else
      let s := { s with window := true, renderer := true }
      let s := { s with texture := d.createTextureOk }
      (s, tr ++ [Act.createTexture s.width s.height], true)

/-- `init` (camera.c lines 101-240): the blocks in source order, each
`return 0` propagated. -/
def initP (d : Device) (a0 : Args) : CState × List Act × Bool :=
  let r1 := initOpen d
  if ¬ r1.2.2 then (r1.1, r1.2.1, false) else
  let r2 := initCaps d r1.1 r1.2.1
  if ¬ r2.2.2 then (r2.1, r2.2.1, false) else
  let r3 := initFormat d a0 r2.1 r2.2.1
  if ¬ r3.2.2.2 then (r3.2.1, r3.2.2.1, false) else
  let r4 := initReqbufs d r3.2.1 r3.2.2.1
  if ¬ r4.2.2 then (r4.1, r4.2.1, false) else
  let r5 := mapBufsLoop d NUMBUFS 0 r4.1 r4.2.1
  if ¬ r5.2.2 then (r5.1, r5.2.1, false) else
  let r6 := queueBufsLoop d NUMBUFS 0 r5.1 r5.2.1
  if ¬ r6.2.2 then (r6.1, r6.2.1, false) else
  let r7 := initStream d r6.1 r6.2.1
  if ¬ r7.2.2 then (r7.1, r7.2.1, false) else
  initSdl d r7.1 r7.2.1

/-! ## Steady state (`handle_events`, `render`; camera.c lines 242-295) -/

/-- One case of the `SDL_PollEvent` switch (camera.c lines 247-254). -/
def handleEvent (s : CState) (e : SdlEvent) : CState :=
  match e with
  | SdlEvent.quitEv => { s with quit := true }
  | SdlEvent.keyDown c => if c = 'q' then { s with quit := true } else s
  | SdlEvent.otherEv => s

/-- `handle_events`: drain all pending events. -/
def handleEvents (s : CState) (es : List SdlEvent) : CState := es.foldl handleEvent s

/-- `render` (camera.c lines 258-295).  Zeroes `s->buf`, dequeues a frame
(`VIDIOC_DQBUF`); on failure logs and returns without requeueing or copying.
On success locks the texture, and copies `width*height*sizeof(Uint16)` bytes
from `s->mem[s->buf.index]` only when `pitch / s->width == sizeof(Uint16)`
(C truncating `int` division, `Int.tdiv`), logging a mismatch otherwise; then requeues
the same `s->buf` (index `i`), logging on failure, and presents. -/
def render (s0 : CState) (e : FrameEnv) : CState × List Act :=
  let s := { s0 with bufIndex := 0, bufLength := 0 }
  match e.dqbufResult with
  | none => (s, [Act.dqbuf none, Act.logErr "Failed to dequeue buffer"])
  | some i =>
    let s := { s with bufIndex := i, bufLength := e.dqLen }
    let copyActs :=
      if Int.tdiv e.pitch s.width = 2 then
        [Act.copyMem i (s.width * s.height * 2)]
      else
        [Act.logErr "mismatch between texture size and buffer size"]
    let qbufActs :=
      [Act.qbuf i e.qbufOk] ++ (if e.qbufOk then [] else [Act.logErr "Failed to requeue buffer"])
    (s, [Act.dqbuf (some i), Act.lockTexture] ++ copyActs ++ [Act.unlockTexture]
        ++ qbufActs ++ [Act.renderClear, Act.renderCopy, Act.renderPresent])

/-! ## Teardown (`quit`, camera.c lines 297-318) -/

/-- `quit` (camera.c lines 297-318): stream-off (failure only logged), then
`munmap(s->mem[i], s->buf.length)` for every `i < NUMBUFS` (unconditionally
— never-mapped slots are not skipped, and the length passed is whatever the
last buffer ioctl left in `s->buf.length`), then `close(s->fd)` guarded by
`if (s->fd)` (nonzero test — the failed-open sentinel −1 passes it), then
the SDL handles guarded by NULL tests, then `SDL_Quit`. -/
def quitP (d : Device) (s : CState) : List Act :=
  let tr := [Act.streamoff d.streamoffOk]
  let tr := tr ++ (if d.streamoffOk then [] else [Act.logErr "Unable to stop capture"])
  let tr := tr ++ (List.range NUMBUFS).map (fun i => Act.munmapBuf i s.bufLength)
  let tr := tr ++ (if s.fd ≠ 0 then [Act.closeFd s.fd] else [])
  let tr := tr ++ (if s.texture then [Act.destroyTexture] else [])
  let tr := tr ++ (if s.renderer then [Act.destroyRenderer] else [])
  let tr := tr ++ (if s.window then [Act.destroyWindow] else [])
  tr ++ [Act.sdlQuit]

/-- Effect of one `munmap(addr, len)` call on slot `i` of the mapping table:
POSIX rejects `len = 0` with `EINVAL` (nothing is unmapped), and a positive
`len` releases the slot's mapping (all buffers of one `VIDIOC_REQBUFS` ring
share one length); `munmap` on an address range that is not mapped succeeds
without effect and without faulting. -/
def munmapSlot (len : Nat) (m : List Bool) (i : Nat) : List Bool :=
  if 0 < len then m.set i false else m

/-- The memory-state effect of `quit`'s unmap loop: which slots still hold a
live mapping afterwards. -/
def memAfterQuit (s : CState) : List Bool :=
  (List.range NUMBUFS).foldl (munmapSlot s.bufLength) s.mem

/-! ## Process (`main`, camera.c lines 320-344) -/

/-- The `while (state.quit == 0)` loop (camera.c lines 335-338), driven by a
finite observed list of ticks: while `quit` is unset, drain events and
render once (note: `render` still runs in the iteration in which
`handle_events` sets `quit`; the flag is tested only at the loop head). -/
def mainLoop (s : CState) : List Tick → CState × List Act
  | [] => (s, [])
  | t :: ts =>
    if s.quit then (s, [])
    else
      let s1 := handleEvents s t.events
      let p := render s1 t.frame
      let r := mainLoop p.1 ts
      (r.1, p.2 ++ r.2)

/-- `main` (camera.c lines 320-344) after argument parsing: `init`; on
failure `quit` then exit `EXIT_FAILURE` (1); on success run the loop, then
`quit` and exit `EXIT_SUCCESS` (0).  Returns the complete trace and the exit
code. -/
def mainP (d : Device) (a : Args) (ticks : List Tick) : List Act × Int :=
  let r := initP d a
  if r.2.2 then
    let l := mainLoop r.1 ticks
    (r.2.1 ++ l.2 ++ quitP d l.1, 0)
  else
    (r.2.1 ++ quitP d r.1, 1)

/-! ## Per-index buffer ownership (claim C3)

The per-index protocol is an automaton over the buffer events of the
steady-state loop: `deq` (a successful `VIDIOC_DQBUF` returned this index),
`read` (the `memcpy` read the slot's mapped memory), `enqOk`/`enqFail` (the
requeueing `VIDIOC_QBUF` of this index succeeded/failed).  From `kernelOwned`
only `deq` is allowed; from `appOwned` reads, and one enqueue, after which
the index is `kernelOwned` again (or `leaked` if the requeue ioctl failed —
the program then never touches it again).  A trace respecting strict
alternation is exactly a trace the automaton accepts. -/

/-- Buffer events of the steady-state loop, projected per index. -/
inductive Tag where
  | deq
  | read
  | enqOk
  | enqFail
  deriving Repr, DecidableEq

/-- Ownership state of one buffer index. -/
inductive BOwn where
  | kernelOwned
  | appOwned
  | leaked
  deriving Repr, DecidableEq

/-- The alternation automaton: `none` means the event violates strict
per-index alternation (a second dequeue without an intervening enqueue, an
enqueue without a preceding dequeue, or a read of enqueued memory). -/
def bstep : BOwn → Tag → Option BOwn
  | BOwn.kernelOwned, Tag.deq => some BOwn.appOwned
  | BOwn.appOwned, Tag.read => some BOwn.appOwned
  | BOwn.appOwned, Tag.enqOk => some BOwn.kernelOwned
  | BOwn.appOwned, Tag.enqFail => some BOwn.leaked
  | _, _ => none

/-- Run of the alternation automaton over a tag list. -/
def brun : Option BOwn → List Tag → Option BOwn
  | b, [] => b
  | none, _ :: _ => none
  | some b, t :: ts => brun (bstep b t) ts

/-- The buffer events a recorded call contributes for index `i`. -/
def tagsOf (i : Nat) : Act → List Tag
  | Act.dqbuf (some j) => if j = i then [Tag.deq] else []
  | Act.copyMem j _ => if j = i then [Tag.read] else []
  | Act.qbuf j ok => if j = i then [if ok then Tag.enqOk else Tag.enqFail] else []
  | _ => []

/-- Projection of a trace to the buffer events of index `i`. -/
def projIdx (i : Nat) : List Act → List Tag
  | [] => []
  | a :: rest => tagsOf i a ++ projIdx i rest

/-- Ownership update induced by one recorded call: a successful dequeue of
`j` hands `j` to the application; a requeue hands it back to the kernel
(or leaks it if the ioctl failed). -/
def ownUpd (own : Nat → BOwn) : Act → Nat → BOwn
  | Act.dqbuf (some j) => fun k => if k = j then BOwn.appOwned else own k
  | Act.qbuf j true => fun k => if k = j then BOwn.kernelOwned else own k
  | Act.qbuf j false => fun k => if k = j then BOwn.leaked else own k
  | _ => own

/-- Ownership after a list of recorded calls. -/
def ownAfter (own : Nat → BOwn) : List Act → Nat → BOwn
  | [] => own
  | a :: rest => ownAfter (ownUpd own a) rest

/-- Device conformance along a run of the main loop: a V4L2 device only
completes (and hence `VIDIOC_DQBUF` only returns) buffers that are currently
queued, i.e. kernel-owned.  The predicate mirrors `mainLoop`'s recursion. -/
def Conforming (own : Nat → BOwn) (s : CState) : List Tick → Prop
  | [] => True
  | t :: ts =>
    if s.quit then True
    else
      (∀ j, t.frame.dqbufResult = some j → own j = BOwn.kernelOwned) ∧
      Conforming (ownAfter own (render (handleEvents s t.events) t.frame).2)
        (render (handleEvents s t.events) t.frame).1 ts

/-- The automaton rejects from the dead state. -/
theorem brun_none (l : List Tag) : brun none l = none := by
  cases l <;> rfl

/-- Projection distributes over trace concatenation. -/
theorem projIdx_append (i : Nat) (l1 l2 : List Act) :
    projIdx i (l1 ++ l2) = projIdx i l1 ++ projIdx i l2 := by
  induction l1 with
  | nil => simp [projIdx]
  | cons a rest ih => simp [projIdx, ih]

/-- Automaton runs compose over concatenation. -/
theorem brun_append (ob : Option BOwn) (l1 l2 : List Tag) :
    brun ob (l1 ++ l2) = brun (brun ob l1) l2 := by
  induction l1 generalizing ob with
  | nil => cases ob <;> simp [brun]
  | cons t ts ih =>
    cases ob with
    | none => simp [brun, brun_none]
    | some b => rw [List.cons_append]; show brun (bstep b t) (ts ++ l2) = _; rw [ih, brun]

/-- Ownership updates compose over concatenation. -/
theorem ownAfter_append (own : Nat → BOwn) (l1 l2 : List Act) :
    ownAfter own (l1 ++ l2) = ownAfter (ownAfter own l1) l2 := by
  induction l1 generalizing own with
  | nil => simp [ownAfter]
  | cons a rest ih =>
    rw [List.cons_append]
    show ownAfter (ownUpd own a) (rest ++ l2) = _
    rw [ih, ownAfter]

/-- One `render` call preserves the per-index protocol: starting from the
current ownership of index `i`, the automaton accepts exactly the events
this call emits for `i` and lands on the updated ownership of `i` —
provided the device only handed out a kernel-owned buffer. -/
theorem renderStepOwn (s : CState) (e : FrameEnv) (own : Nat → BOwn) (i : Nat)
    (hconf : ∀ j, e.dqbufResult = some j → own j = BOwn.kernelOwned) :
    brun (some (own i)) (projIdx i (render s e).2)
      = some (ownAfter own (render s e).2 i) := by
  cases hd : e.dqbufResult with
  | none => simp [render, hd, projIdx, tagsOf, ownAfter, ownUpd, brun]
  | some j =>
    have hj := hconf j hd
    by_cases hji : j = i
    · subst hji
      by_cases hp : Int.tdiv e.pitch s.width = 2 <;>
        cases hq : e.qbufOk <;>
          simp [render, hd, hp, hq, projIdx, tagsOf, ownAfter, ownUpd, brun, bstep, hj]
    · have hij : ¬ (i = j) := fun h => hji h.symm
      by_cases hp : Int.tdiv e.pitch s.width = 2 <;>
        cases hq : e.qbufOk <;>
          simp [render, hd, hp, hq, projIdx, tagsOf, ownAfter, ownUpd, brun, bstep, hji, hij]

/-- Claim C3: per-index buffer ownership alternates strictly in the
steady-state loop.  For any run of the main loop against a conforming device
(one that only completes kernel-owned buffers), and any buffer index `i`,
the automaton of `bstep` accepts the events the loop's trace emits for `i`
starting from `i`'s initial ownership, and lands exactly on the ownership
computed by the updates: so a buffer is acquired only by a successful
dequeue, is requeued at most once (the same index), its mapped memory is
read only while application-owned (never between its enqueue and the next
dequeue of the same index), and no index is dequeued or enqueued twice in a
row. -/
theorem render_loop_ownership_alternation (own : Nat → BOwn) (s : CState)
    (ticks : List Tick) (h : Conforming own s ticks) (i : Nat) :
    brun (some (own i)) (projIdx i (mainLoop s ticks).2)
      = some (ownAfter own (mainLoop s ticks).2 i) := by
  induction ticks generalizing own s with
  | nil => simp [mainLoop, projIdx, ownAfter, brun]
  | cons t ts ih =>
    by_cases hq : s.quit
    · simp [mainLoop, hq, projIdx, ownAfter, brun]
    · simp only [Conforming, if_neg hq] at h
      obtain ⟨hconf, hrest⟩ := h
      simp only [mainLoop, if_neg hq]
      rw [projIdx_append, brun_append, renderStepOwn _ _ _ _ hconf, ownAfter_append]
      exact ih _ _ hrest

/-! ## Stage lemmas for `init` -/

/-- The query-and-map loop never touches the recorded resolution. -/
theorem mapBufsLoop_pres (d : Device) :
    ∀ n i s tr, ((mapBufsLoop d n i s tr).1).width = s.width ∧
      ((mapBufsLoop d n i s tr).1).height = s.height := by
  intro n
  induction n with
  | zero => intro i s tr; simp [mapBufsLoop]
  | succ n ih =>
    intro i s tr
    by_cases hq : d.querybufOk i <;> by_cases hm : d.mmapOk i <;>
      simp [mapBufsLoop, hq, hm, ih]

/-- The initial queueing loop never touches the recorded resolution. -/
theorem queueBufsLoop_pres (d : Device) :
    ∀ n i s tr, ((queueBufsLoop d n i s tr).1).width = s.width ∧
      ((queueBufsLoop d n i s tr).1).height = s.height := by
  intro n
  induction n with
  | zero => intro i s tr; simp [queueBufsLoop]
  | succ n ih =>
    intro i s tr
    by_cases hq : d.initQbufOk i <;> simp [queueBufsLoop, hq, ih]

/-- Because `VIDIOC_S_FMT` receives the format struct by value, a successful
`initFormat` leaves the arguments untouched and records exactly the
requested resolution: the read-back branch compares the request with itself
and is never taken. -/
theorem initFormat_spec (d : Device) (a0 : Args) (s : CState) (tr : List Act)
    (hok : (initFormat d a0 s tr).2.2.2 = true) :
    (initFormat d a0 s tr).1 = a0 ∧
    (initFormat d a0 s tr).2.1.width = a0.width ∧
    (initFormat d a0 s tr).2.1.height = a0.height := by
  by_cases hf : d.sFmtOk <;> simp [initFormat, hf, bne_self_eq_false] at hok ⊢

/-- `initStream` does not modify the state. -/
theorem initStream_state (d : Device) (s : CState) (tr : List Act) :
    (initStream d s tr).1 = s := by
  by_cases h : d.streamonOk <;> simp [initStream, h]

/-- Successful SDL setup sizes the window/renderer and the streaming texture
with the state's recorded `width`/`height` and preserves those fields. -/
theorem initSdl_spec (d : Device) (s : CState) (tr : List Act)
    (hok : (initSdl d s tr).2.2 = true) :
    (initSdl d s tr).1.width = s.width ∧ (initSdl d s tr).1.height = s.height ∧
    Act.createTexture s.width s.height ∈ (initSdl d s tr).2.1 ∧
    Act.createWindowAndRenderer s.width s.height true ∈ (initSdl d s tr).2.1 := by
  by_cases h1 : d.sdlInitOk <;> by_cases h2 : d.createWROk <;>
    simp [initSdl, h1, h2] at hok ⊢

/-- `initReqbufs` never touches the recorded resolution. -/
theorem initReqbufs_pres (d : Device) (s : CState) (tr : List Act) :
    (initReqbufs d s tr).1.width = s.width ∧ (initReqbufs d s tr).1.height = s.height := by
  by_cases h : d.reqbufsOk <;> simp [initReqbufs, h]

/-- Claim C1 (code bug): whenever `init` succeeds, the session's recorded
resolution (`state.width`/`state.height`) equals the *requested*
width/height, and the window/renderer and display texture are sized with
those requested values — the device-granted values are never read back,
because line 137 passes the format struct to the `VIDIOC_S_FMT` ioctl by
value (missing `&`), so the driver cannot write the granted format into
`s->fmt` and the read-back check of lines 144-156 compares the request with
itself.  This contradicts the claim that the recorded resolution is always
the granted one. -/
theorem init_records_requested_resolution (d : Device) (a : Args)
    (hs : (initP d a).2.2 = true) :
    (initP d a).1.width = a.width ∧ (initP d a).1.height = a.height ∧
    Act.createTexture a.width a.height ∈ (initP d a).2.1 := by
  rcases h1 : initOpen d with ⟨s1, tr1, ok1⟩
  cases ok1 with
  | false => simp [initP, h1] at hs
  | true =>
  rcases h2 : initCaps d s1 tr1 with ⟨s2, tr2, ok2⟩
  cases ok2 with
  | false => simp [initP, h1, h2] at hs
  | true =>
  rcases h3 : initFormat d a s2 tr2 with ⟨a3, s3, tr3, ok3⟩
  cases ok3 with
  | false => simp [initP, h1, h2, h3] at hs
  | true =>
  obtain ⟨ha3, hw3, hh3⟩ := initFormat_spec d a s2 tr2 (by simp [h3])
  rw [h3] at ha3 hw3 hh3
  rcases h4 : initReqbufs d s3 tr3 with ⟨s4, tr4, ok4⟩
  cases ok4 with
  | false => simp [initP, h1, h2, h3, h4] at hs
  | true =>
  obtain ⟨hw4, hh4⟩ := initReqbufs_pres d s3 tr3
  rw [h4] at hw4 hh4
  rcases h5 : mapBufsLoop d NUMBUFS 0 s4 tr4 with ⟨s5, tr5, ok5⟩
  cases ok5 with
  | false => simp [initP, h1, h2, h3, h4, h5] at hs
  | true =>
  obtain ⟨hw5, hh5⟩ := mapBufsLoop_pres d NUMBUFS 0 s4 tr4
  rw [h5] at hw5 hh5
  rcases h6 : queueBufsLoop d NUMBUFS 0 s5 tr5 with ⟨s6, tr6, ok6⟩
  cases ok6 with
  | false => simp [initP, h1, h2, h3, h4, h5, h6] at hs
  | true =>
  obtain ⟨hw6, hh6⟩ := queueBufsLoop_pres d NUMBUFS 0 s5 tr5
  rw [h6] at hw6 hh6
  rcases h7 : initStream d s6 tr6 with ⟨s7, tr7, ok7⟩
  cases ok7 with
  | false => simp [initP, h1, h2, h3, h4, h5, h6, h7] at hs
  | true =>
  have hs7 : s7 = s6 := by
    have := initStream_state d s6 tr6
    rw [h7] at this
    exact this
  have hs' : (initSdl d s7 tr7).2.2 = true := by
    simp only [initP, h1, h2, h3, h4, h5, h6, h7] at hs
    simpa using hs
  obtain ⟨hw8, hh8, hmem, _⟩ := initSdl_spec d s7 tr7 hs'
  have hfin : initP d a = initSdl d s7 tr7 := by
    simp [initP, h1, h2, h3, h4, h5, h6, h7, hs']
  have hwa : s7.width = a.width := by rw [hs7, hw6, hw5, hw4, hw3]
  have hha : s7.height = a.height := by rw [hs7, hh6, hh5, hh4, hh3]
  rw [hwa, hha] at hmem
  rw [hfin, hw8, hh8, hwa, hha]
  exact ⟨rfl, rfl, hmem⟩

/-- A fully cooperative concrete device for witness runs: open succeeds
(fd 3), capabilities report both required bits (0x04000001), every ioctl
succeeds, all 16 buffers are granted with length 614400, and the device
would grant 1280×720 for the (800×600) request — a resolution different
from the requested one. -/
def okDev : Device :=
  { openRes := 3, querycapOk := true, capabilities := 0x04000001, sFmtOk := true,
    grantWidth := 1280, grantHeight := 720, reqbufsOk := true, grantedBufs := 16,
    querybufOk := fun _ => true, bufLen := fun _ => 614400, mmapOk := fun _ => true,
    initQbufOk := fun _ => true, streamonOk := true, sdlInitOk := true,
    createWROk := true, createTextureOk := true, streamoffOk := true }

/-- Witness for C1's theorem at a concrete run: against `okDev` (which
grants 1280×720, not the requested 800×600) `init` succeeds and the
recorded resolution and texture size are the requested 800×600. -/
theorem init_records_requested_resolution_witness :
    (initP okDev defaultArgs).2.2 = true ∧
    ((initP okDev defaultArgs).1.width = defaultArgs.width ∧
     (initP okDev defaultArgs).1.height = defaultArgs.height ∧
     Act.createTexture defaultArgs.width defaultArgs.height ∈ (initP okDev defaultArgs).2.1) :=
  ⟨by decide, init_records_requested_resolution okDev defaultArgs (by decide)⟩

/-- `render` never touches the quit flag. -/
theorem render_quit (s : CState) (e : FrameEnv) : (render s e).1.quit = s.quit := by
  cases hd : e.dqbufResult <;> simp [render, hd]

/-- Claim C5: a failed dequeue mid-stream only logs.  The iteration's trace
is exactly the dequeue attempt and the error log — no requeue (`Act.qbuf`)
and no copy (`Act.copyMem`) happen — the quit flag is untouched, and the
main loop's trace continues with the remaining ticks (the loop proceeds to
the next iteration; the session is not terminated). -/
theorem dequeue_failure_skips_and_continues (s : CState) (t : Tick) (rest : List Tick)
    (hq : s.quit = false) (hqe : (handleEvents s t.events).quit = false)
    (hd : t.frame.dqbufResult = none) :
    (render (handleEvents s t.events) t.frame).2
        = [Act.dqbuf none, Act.logErr "Failed to dequeue buffer"] ∧
    (∀ i ok, Act.qbuf i ok ∉ (render (handleEvents s t.events) t.frame).2) ∧
    (∀ i b, Act.copyMem i b ∉ (render (handleEvents s t.events) t.frame).2) ∧
    (render (handleEvents s t.events) t.frame).1.quit = false ∧
    (mainLoop s (t :: rest)).2
        = (render (handleEvents s t.events) t.frame).2
            ++ (mainLoop (render (handleEvents s t.events) t.frame).1 rest).2 := by
  refine ⟨by simp [render, hd], by simp [render, hd], by simp [render, hd],
    by rw [render_quit]; exact hqe, ?_⟩
  simp [mainLoop, hq]

/-- Witness for C5 at a concrete run: one tick whose dequeue fails, followed
by one normal tick; the first iteration logs and skips, the loop continues. -/
theorem dequeue_failure_skips_and_continues_witness :
    zeroState.quit = false ∧
    ((render (handleEvents zeroState []) { dqbufResult := none, dqLen := 0, pitch := 1600, qbufOk := true }).2
        = [Act.dqbuf none, Act.logErr "Failed to dequeue buffer"] ∧
     (∀ i ok, Act.qbuf i ok ∉ (render (handleEvents zeroState []) { dqbufResult := none, dqLen := 0, pitch := 1600, qbufOk := true }).2) ∧
     (∀ i b, Act.copyMem i b ∉ (render (handleEvents zeroState []) { dqbufResult := none, dqLen := 0, pitch := 1600, qbufOk := true }).2) ∧
     (render (handleEvents zeroState []) { dqbufResult := none, dqLen := 0, pitch := 1600, qbufOk := true }).1.quit = false ∧
     (mainLoop zeroState ({ events := [], frame := { dqbufResult := none, dqLen := 0, pitch := 1600, qbufOk := true } } :: [])).2
        = (render (handleEvents zeroState []) { dqbufResult := none, dqLen := 0, pitch := 1600, qbufOk := true }).2
            ++ (mainLoop (render (handleEvents zeroState []) { dqbufResult := none, dqLen := 0, pitch := 1600, qbufOk := true }).1 []).2) :=
  ⟨by decide, dequeue_failure_skips_and_continues zeroState
    { events := [], frame := { dqbufResult := none, dqLen := 0, pitch := 1600, qbufOk := true } } []
    (by decide) (by decide) rfl⟩

/-- Claim C6: when the locked texture's pitch divided by the width differs
from 2 (the bytes-per-pixel of the fixed YUYV layout), the frame handler
logs the mismatch, performs no pixel copy, and still requeues exactly the
dequeued index, so the buffer is returned to the kernel and the session
continues. -/
theorem pitch_mismatch_skips_copy_still_requeues (s : CState) (e : FrameEnv) (i : Nat)
    (hd : e.dqbufResult = some i) (hp : ¬ Int.tdiv e.pitch s.width = 2) :
    Act.logErr "mismatch between texture size and buffer size" ∈ (render s e).2 ∧
    (∀ j b, Act.copyMem j b ∉ (render s e).2) ∧
    Act.qbuf i e.qbufOk ∈ (render s e).2 := by
  cases hqb : e.qbufOk <;> simp [render, hd, hp, hqb]

/-- Witness for C6 at a concrete run: dequeue returns buffer 2 but the
pitch is 800 for width 800 (800/800 = 1 ≠ 2): the mismatch is logged, no
copy happens, buffer 2 is still requeued. -/
theorem pitch_mismatch_skips_copy_still_requeues_witness :
    ¬ Int.tdiv (800 : Int) ({ zeroState with width := 800, height := 600 } : CState).width = 2 ∧
    (Act.logErr "mismatch between texture size and buffer size"
        ∈ (render { zeroState with width := 800, height := 600 } { dqbufResult := some 2, dqLen := 614400, pitch := 800, qbufOk := true }).2 ∧
     (∀ j b, Act.copyMem j b ∉ (render { zeroState with width := 800, height := 600 } { dqbufResult := some 2, dqLen := 614400, pitch := 800, qbufOk := true }).2) ∧
     Act.qbuf 2 true ∈ (render { zeroState with width := 800, height := 600 } { dqbufResult := some 2, dqLen := 614400, pitch := 800, qbufOk := true }).2) :=
  ⟨by decide, pitch_mismatch_skips_copy_still_requeues
    { zeroState with width := 800, height := 600 }
    { dqbufResult := some 2, dqLen := 614400, pitch := 800, qbufOk := true } 2 rfl (by decide)⟩

/-- Claim C9: if the device opens and the capability query succeeds but
either the video-capture or the streaming capability bit is absent, `init`
returns 0 with an error logged, no format negotiation (`VIDIOC_S_FMT`) and
no buffer allocation (`VIDIOC_REQBUFS`) is ever issued, and the process
exits with `EXIT_FAILURE`. -/
theorem missing_capability_aborts_init (d : Device) (a : Args) (ticks : List Tick)
    (hopen : 0 ≤ d.openRes) (hcap : d.querycapOk = true)
    (hmiss : Nat.land d.capabilities V4L2_CAP_VIDEO_CAPTURE = 0 ∨
             Nat.land d.capabilities V4L2_CAP_STREAMING = 0) :
    (initP d a).2.2 = false ∧
    (∃ m, Act.logErr m ∈ (initP d a).2.1) ∧
    (∀ w h ok, Act.sFmt w h ok ∉ (initP d a).2.1) ∧
    (∀ c ok, Act.reqbufs c ok ∉ (initP d a).2.1) ∧
    (mainP d a ticks).2 = 1 := by
  have hnlt : ¬ d.openRes < 0 := by omega
  by_cases hv : Nat.land d.capabilities V4L2_CAP_VIDEO_CAPTURE = 0
  · simp [initP, mainP, initOpen, initCaps, hnlt, hcap, hv]
  · have hs : Nat.land d.capabilities V4L2_CAP_STREAMING = 0 := by tauto
    simp [initP, mainP, initOpen, initCaps, hnlt, hcap, hv, hs]

/-- Witness for C9 at a concrete device: capabilities report streaming but
not video capture; `init` fails, no format/buffer ioctl is issued, exit
code is 1. -/
theorem missing_capability_aborts_init_witness :
    (0 : Int) ≤ ({ okDev with capabilities := 0x04000000 } : Device).openRes ∧
    ((initP { okDev with capabilities := 0x04000000 } defaultArgs).2.2 = false ∧
     (∃ m, Act.logErr m ∈ (initP { okDev with capabilities := 0x04000000 } defaultArgs).2.1) ∧
     (∀ w h ok, Act.sFmt w h ok ∉ (initP { okDev with capabilities := 0x04000000 } defaultArgs).2.1) ∧
     (∀ c ok, Act.reqbufs c ok ∉ (initP { okDev with capabilities := 0x04000000 } defaultArgs).2.1) ∧
     (mainP { okDev with capabilities := 0x04000000 } defaultArgs []).2 = 1) :=
  ⟨by decide, missing_capability_aborts_init { okDev with capabilities := 0x04000000 }
    defaultArgs [] (by decide) (by decide) (Or.inl (by decide))⟩

/-- A concrete steady-state tick for the C3 witness: buffer 0 is dequeued
with a matching pitch and successfully requeued. -/
def c3Tick : Tick :=
  { events := [],
    frame := { dqbufResult := some 0, dqLen := 614400, pitch := 1600, qbufOk := true } }

/-- Witness for C3 at a concrete two-tick run (buffer 0 dequeued, copied and
requeued twice): the run is conforming and the per-index automaton accepts
index 0's events, ending kernel-owned. -/
theorem render_loop_ownership_alternation_witness :
    Conforming (fun _ => BOwn.kernelOwned) { zeroState with width := 800 } [c3Tick, c3Tick] ∧
    brun (some BOwn.kernelOwned)
        (projIdx 0 (mainLoop { zeroState with width := 800 } [c3Tick, c3Tick]).2)
      = some (ownAfter (fun _ => BOwn.kernelOwned)
          (mainLoop { zeroState with width := 800 } [c3Tick, c3Tick]).2 0) := by
  have hconf : Conforming (fun _ => BOwn.kernelOwned) { zeroState with width := 800 }
      [c3Tick, c3Tick] := by
    refine ⟨?_, ?_, trivial⟩
    · intro j h
      simp [c3Tick] at h
      subst h
      rfl
    · intro j h
      simp [c3Tick] at h
      subst h
      decide
  exact ⟨hconf,
    render_loop_ownership_alternation (fun _ => BOwn.kernelOwned)
      { zeroState with width := 800 } [c3Tick, c3Tick] hconf 0⟩

/-- On a conforming device that grants only `g < NUMBUFS` buffers (so
`VIDIOC_QUERYBUF` fails at index `g`), the hard-coded query-and-map loop
reaches index `g` and fails there. -/
theorem mapBufsLoop_fail (d : Device) (g : Nat)
    (hql : ∀ j, j < g → d.querybufOk j = true)
    (hml : ∀ j, j < g → d.mmapOk j = true)
    (hqg : d.querybufOk g = false) :
    ∀ n i s tr, i ≤ g → g < i + n →
      (mapBufsLoop d n i s tr).2.2 = false ∧
      Act.querybuf g false ∈ (mapBufsLoop d n i s tr).2.1 := by
  intro n
  induction n with
  | zero => intro i s tr h1 h2; omega
  | succ n ih =>
    intro i s tr h1 h2
    rcases Nat.lt_or_ge i g with hig | hig
    · have hq := hql i hig
      have hm := hml i hig
      simpa [mapBufsLoop, hq, hm] using ih (i + 1) _ _ (by omega) (by omega)
    · have hieq : i = g := Nat.le_antisymm h1 hig
      subst hieq
      simp [mapBufsLoop, hqg]

/-- The query-and-map loop appends no `streamon` record. -/
theorem mapBufsLoop_no_streamon (d : Device) :
    ∀ n i s tr, (∀ ok, Act.streamon ok ∉ tr) →
      ∀ ok, Act.streamon ok ∉ (mapBufsLoop d n i s tr).2.1 := by
  intro n
  induction n with
  | zero => intro i s tr h ok; simpa [mapBufsLoop] using h ok
  | succ n ih =>
    intro i s tr h ok
    by_cases hq : d.querybufOk i
    · by_cases hm : d.mmapOk i
      · simp only [mapBufsLoop, hq, hm, if_true]
        exact ih (i + 1) _ _ (by intro ok2; simp [h ok2]) ok
      · simp [mapBufsLoop, hq, hm, h ok]
    · simp [mapBufsLoop, hq, h ok]

/-- Claim C2 (amended): the per-buffer loops and the unmap loop iterate over
the hard-coded constant `NUMBUFS = 16`, never over the granted count: (1) on
a conforming device granting `g < 16` buffers (query fails from index `g`
on), `init` queries the out-of-range index `g`, fails, and never reaches
stream-on — streaming does not start; (2) teardown's unmap loop covers
exactly the indices `0..15` regardless of the granted count recorded in
`rb.count`. -/
theorem buffer_loops_hardcode_numbufs :
    (∀ (d : Device) (a : Args),
      ¬ d.openRes < 0 → d.querycapOk = true →
      Nat.land d.capabilities V4L2_CAP_VIDEO_CAPTURE ≠ 0 →
      Nat.land d.capabilities V4L2_CAP_STREAMING ≠ 0 →
      d.sFmtOk = true → d.reqbufsOk = true →
      d.grantedBufs < NUMBUFS →
      (∀ j, j < d.grantedBufs → d.querybufOk j = true) →
      (∀ j, j < d.grantedBufs → d.mmapOk j = true) →
      d.querybufOk d.grantedBufs = false →
      (initP d a).2.2 = false ∧
      Act.querybuf d.grantedBufs false ∈ (initP d a).2.1 ∧
      (∀ ok, Act.streamon ok ∉ (initP d a).2.1)) ∧
    (∀ (dv : Device) (s : CState),
      (∀ i, i < NUMBUFS → Act.munmapBuf i s.bufLength ∈ quitP dv s) ∧
      (∀ i len, NUMBUFS ≤ i → Act.munmapBuf i len ∉ quitP dv s)) := by
  constructor
  · intro d a hnlt hcap hv hst hsf hrb hlt hql hml hqg
    have hf1 : ∀ s tr, (mapBufsLoop d NUMBUFS 0 s tr).2.2 = false := fun s tr =>
      (mapBufsLoop_fail d d.grantedBufs hql hml hqg NUMBUFS 0 s tr
        (Nat.zero_le _) (by omega)).1
    have hf2 : ∀ s tr, Act.querybuf d.grantedBufs false ∈ (mapBufsLoop d NUMBUFS 0 s tr).2.1 :=
      fun s tr =>
        (mapBufsLoop_fail d d.grantedBufs hql hml hqg NUMBUFS 0 s tr
          (Nat.zero_le _) (by omega)).2
    refine ⟨?_, ?_, ?_⟩
    · simp [initP, initOpen, initCaps, initFormat, initReqbufs, hnlt, hcap, hv, hst,
        hsf, hrb, bne_self_eq_false, hf1]
    · simp [initP, initOpen, initCaps, initFormat, initReqbufs, hnlt, hcap, hv, hst,
        hsf, hrb, bne_self_eq_false, hf1, hf2]
    · intro ok
      simp only [initP, initOpen, initCaps, initFormat, initReqbufs, hnlt, hcap, hv, hst,
        hsf, hrb, bne_self_eq_false, Bool.or_self, Bool.not_true, Bool.not_false,
        if_false, if_true, ite_false, ite_true, hf1]
      apply mapBufsLoop_no_streamon
      intro ok2
      simp
  · intro dv s
    constructor
    · intro i hi
      have hm : Act.munmapBuf i s.bufLength
          ∈ (List.range NUMBUFS).map (fun j => Act.munmapBuf j s.bufLength) :=
        List.mem_map.2 ⟨i, List.mem_range.2 hi, rfl⟩
      simp [quitP, hm]
    · intro i len hbig
      simp only [quitP]
      split_ifs <;> simp_all <;> omega

/-- A conforming device that grants only 8 of the 16 requested buffers:
`VIDIOC_REQBUFS` writes back count 8 and `VIDIOC_QUERYBUF` fails for any
index ≥ 8. -/
def dev8 : Device :=
  { okDev with grantedBufs := 8, querybufOk := fun i => decide (i < 8) }

/-- Counterexample to C2 as stated: on a device granting 8 buffers, the
buffer loops do not iterate over the granted count — `init` queries the
out-of-granted-range index 8, fails, and streaming never starts (no
stream-on is issued), contradicting both "only the granted indices are ever
used" and "streaming still starts successfully". -/
theorem reqbufs_grant_eight_counterexample :
    (initP dev8 defaultArgs).2.2 = false ∧
    Act.querybuf 8 false ∈ (initP dev8 defaultArgs).2.1 ∧
    (∀ ok, Act.streamon ok ∉ (initP dev8 defaultArgs).2.1) := by
  refine ⟨by decide, by decide, ?_⟩
  intro ok
  cases ok <;> decide

/-- Witness for C2's amended theorem: the general statement applied to the
concrete 8-granting device `dev8` and to a concrete teardown. -/
theorem buffer_loops_hardcode_numbufs_witness :
    dev8.grantedBufs < NUMBUFS ∧
    ((initP dev8 defaultArgs).2.2 = false ∧
     Act.querybuf dev8.grantedBufs false ∈ (initP dev8 defaultArgs).2.1 ∧
     (∀ ok, Act.streamon ok ∉ (initP dev8 defaultArgs).2.1)) ∧
    (∀ i, i < NUMBUFS → Act.munmapBuf i zeroState.bufLength ∈ quitP dev8 zeroState) :=
  ⟨by decide,
   buffer_loops_hardcode_numbufs.1 dev8 defaultArgs (by decide) (by decide) (by decide)
     (by decide) (by decide) (by decide) (by decide)
     (fun j hj => by simpa [dev8, okDev] using hj)
     (fun j hj => by simp [dev8, okDev])
     (by decide),
   (buffer_loops_hardcode_numbufs.2 dev8 zeroState).1⟩

/-! ## The memory effect of the unmap loop (claims C4 and C7) -/

/-- `munmap` with length 0 over the whole loop releases nothing. -/
theorem foldl_munmapSlot_zero : ∀ (l : List Nat) (m : List Bool),
    l.foldl (munmapSlot 0) m = m := by
  intro l
  induction l with
  | nil => intro m; rfl
  | cons i rest ih => intro m; simp [List.foldl_cons, munmapSlot, ih]

/-- The unmap loop does not change the number of slots. -/
theorem foldl_munmapSlot_length (len : Nat) : ∀ (l : List Nat) (m : List Bool),
    (l.foldl (munmapSlot len) m).length = m.length := by
  intro l
  induction l with
  | nil => intro m; rfl
  | cons i rest ih =>
    intro m
    by_cases h : 0 < len <;> simp [List.foldl_cons, munmapSlot, h, ih]

/-- Slot-level description of the unmap loop with a positive length: the
first `n` slots are released, the rest are untouched. -/
theorem foldl_munmapSlot_getElem? (len : Nat) (hlen : 0 < len) :
    ∀ (n : Nat) (m : List Bool) (k : Nat),
      ((List.range n).foldl (munmapSlot len) m)[k]?
        = if k < n ∧ k < m.length then some false else m[k]? := by
  intro n
  induction n with
  | zero => intro m k; simp
  | succ n ih =>
    intro m k
    rw [List.range_succ, List.foldl_append]
    simp only [List.foldl_cons, List.foldl_nil]
    rw [show munmapSlot len ((List.range n).foldl (munmapSlot len) m) n
          = ((List.range n).foldl (munmapSlot len) m).set n false from by
        simp [munmapSlot, hlen]]
    by_cases hk : k = n
    · subst hk
      rw [List.getElem?_set_self']
      rw [ih m k]
      by_cases hkm : k < m.length
      · simp [Nat.lt_irrefl, hkm, List.getElem?_eq_getElem hkm]
      · have hnone : m[k]? = none := List.getElem?_eq_none (by omega)
        simp [hkm, hnone, Nat.lt_irrefl]
    · rw [List.getElem?_set_ne (fun h => hk h.symm)]
      rw [ih m k]
      by_cases h1 : k < n
      · have h3 : k < n + 1 := by omega
        simp [h1, h3]
      · have h2 : ¬ k < n + 1 := by omega
        simp [h1, h2]

/-- With `buf.length = 0` (as left behind by the `memset` of a failed
dequeue) the unmap loop releases nothing. -/
theorem memAfterQuit_zero (s : CState) (h : s.bufLength = 0) : memAfterQuit s = s.mem := by
  rw [memAfterQuit, h, foldl_munmapSlot_zero]

/-- With a positive recorded buffer length and the full 16-slot table,
teardown's unmap loop releases every slot. -/
theorem memAfterQuit_pos (s : CState) (hlen : s.mem.length = NUMBUFS)
    (hb : 0 < s.bufLength) : memAfterQuit s = List.replicate NUMBUFS false := by
  apply List.ext_getElem?
  intro k
  rw [memAfterQuit, foldl_munmapSlot_getElem? s.bufLength hb NUMBUFS s.mem k,
    List.getElem?_replicate]
  by_cases hk : k < NUMBUFS
  · simp [hk, hlen]
  · have hn : s.mem[k]? = none := List.getElem?_eq_none (by omega)
    simp [hk, hlen, hn]

/-- The unmap loop's memory effect is idempotent: a second teardown pass
releases nothing further. -/
theorem memAfterQuit_idem (s : CState) :
    memAfterQuit { s with mem := memAfterQuit s } = memAfterQuit s := by
  by_cases hb : 0 < s.bufLength
  · apply List.ext_getElem?
    intro k
    have hlen2 : (memAfterQuit s).length = s.mem.length := by
      rw [memAfterQuit]; exact foldl_munmapSlot_length s.bufLength _ s.mem
    show ((List.range NUMBUFS).foldl (munmapSlot s.bufLength) (memAfterQuit s))[k]?
      = (memAfterQuit s)[k]?
    rw [foldl_munmapSlot_getElem? s.bufLength hb NUMBUFS (memAfterQuit s) k, hlen2]
    rw [show (memAfterQuit s)[k]? = if k < NUMBUFS ∧ k < s.mem.length then some false
          else s.mem[k]? from foldl_munmapSlot_getElem? s.bufLength hb NUMBUFS s.mem k]
    by_cases hc : k < NUMBUFS ∧ k < s.mem.length <;> simp [hc]
  · have h0 : s.bufLength = 0 := by omega
    rw [memAfterQuit_zero _ h0]
    exact memAfterQuit_zero s h0

/-- Claim C4 (amended): whenever the session ends — on the init-failure path
as well as after the loop — `main` runs the teardown trace unconditionally
(1); within it the order is fixed: stream-off first (with its failure only
logged), then the 16 unmap attempts, then `close` (exactly when the stored
descriptor is nonzero), then the SDL teardown (2); the unmap attempts all
pass the *last recorded* `buf.length`: with a positive recorded length every
slot's mapping is released (3), but with recorded length 0 — the state a
failed dequeue leaves behind — `munmap(addr, 0)` fails with `EINVAL` and
*no* mapping is released (4); and a failed stream-off only inserts a log
entry, the rest of the teardown is unchanged (5). -/
theorem teardown_sequence_amended :
    (∀ (d : Device) (a : Args) (ticks : List Tick),
      ∃ s pre, (mainP d a ticks).1 = pre ++ quitP d s) ∧
    (∀ (d : Device) (s : CState),
      quitP d s
        = [Act.streamoff d.streamoffOk]
            ++ (if d.streamoffOk then [] else [Act.logErr "Unable to stop capture"])
            ++ (List.range NUMBUFS).map (fun i => Act.munmapBuf i s.bufLength)
            ++ (if s.fd ≠ 0 then [Act.closeFd s.fd] else [])
            ++ (if s.texture then [Act.destroyTexture] else [])
            ++ (if s.renderer then [Act.destroyRenderer] else [])
            ++ (if s.window then [Act.destroyWindow] else [])
            ++ [Act.sdlQuit]) ∧
    (∀ s : CState, s.mem.length = NUMBUFS → 0 < s.bufLength →
      memAfterQuit s = List.replicate NUMBUFS false) ∧
    (∀ s : CState, s.bufLength = 0 → memAfterQuit s = s.mem) ∧
    (∀ (d : Device) (s : CState),
      quitP { d with streamoffOk := false } s
        = Act.streamoff false :: Act.logErr "Unable to stop capture"
            :: (quitP { d with streamoffOk := true } s).tail) := by
  refine ⟨?_, ?_, memAfterQuit_pos, memAfterQuit_zero, ?_⟩
  · intro d a ticks
    by_cases h : (initP d a).2.2
    · exact ⟨(mainLoop (initP d a).1 ticks).1,
        (initP d a).2.1 ++ (mainLoop (initP d a).1 ticks).2,
        by simp [mainP, h, List.append_assoc]⟩
    · exact ⟨(initP d a).1, (initP d a).2.1, by simp [mainP, h]⟩
  · intro d s
    simp [quitP, List.append_assoc]
  · intro d s
    simp [quitP]

/-- A concrete mid-stream state: all 16 buffers mapped, descriptor 3, the
last successful buffer ioctl recorded length 614400, SDL handles live. -/
def c4Stream : CState :=
  { zeroState with
    mem := List.replicate NUMBUFS true, fd := 3, width := 800,
    height := 600, bufLength := 614400, window := true, renderer := true,
    texture := true }

/-- Counterexample to C4 as stated ("every buffer mapping is released"): a
dequeue failure zeroes `s->buf` (so `buf.length = 0`) and returns; if the
session then ends, teardown calls `munmap(s->mem[i], 0)`, which releases
nothing — slot 0's mapping survives teardown. -/
theorem teardown_zero_length_leak_counterexample :
    (render c4Stream { dqbufResult := none, dqLen := 0, pitch := 1600, qbufOk := true }).1.bufLength = 0 ∧
    (render c4Stream { dqbufResult := none, dqLen := 0, pitch := 1600, qbufOk := true }).1.mem[0]? = some true ∧
    (memAfterQuit (render c4Stream { dqbufResult := none, dqLen := 0, pitch := 1600, qbufOk := true }).1)[0]? = some true := by
  decide

/-- Witness for C4's amended theorem: teardown is a suffix of a concrete
full run, and on the concrete mid-stream state with a positive recorded
length every slot is released. -/
theorem teardown_sequence_amended_witness :
    (∃ s pre, (mainP okDev defaultArgs []).1 = pre ++ quitP okDev s) ∧
    (c4Stream.mem.length = NUMBUFS ∧
     memAfterQuit c4Stream = List.replicate NUMBUFS false) :=
  ⟨teardown_sequence_amended.1 okDev defaultArgs [],
   by decide, teardown_sequence_amended.2.2.1 c4Stream (by decide) (by decide)⟩

/-- Claim C7 (amended): the buffer-release step never skips — every call
attempts `munmap` on all 16 slots (with the currently recorded
`buf.length`), including entries that were never mapped (1).  It is
nevertheless safe in effect: when nothing is mapped the memory state is
unchanged (2) — POSIX `munmap` on an unmapped range does not fault — and
the memory effect is idempotent, so a second call in succession releases
nothing further (3). -/
theorem release_attempts_all_slots_effect_idempotent :
    (∀ (d : Device) (s : CState) (i : Nat), i < NUMBUFS →
      Act.munmapBuf i s.bufLength ∈ quitP d s) ∧
    (∀ s : CState, s.mem = List.replicate NUMBUFS false → memAfterQuit s = s.mem) ∧
    (∀ s : CState, memAfterQuit { s with mem := memAfterQuit s } = memAfterQuit s) := by
  refine ⟨?_, ?_, memAfterQuit_idem⟩
  · intro d s i hi
    have hm : Act.munmapBuf i s.bufLength
        ∈ (List.range NUMBUFS).map (fun j => Act.munmapBuf j s.bufLength) :=
      List.mem_map.2 ⟨i, List.mem_range.2 hi, rfl⟩
    simp [quitP, hm]
  · intro s h
    by_cases hb : 0 < s.bufLength
    · rw [memAfterQuit_pos s (by simp [h]) hb, h]
    · exact memAfterQuit_zero s (by omega)

/-- Counterexample to C7 as stated ("no unmap is ever attempted on an
unmapped region"): on the freshly zeroed state — streaming never started,
nothing mapped — teardown still attempts `munmap` on (never-mapped) slot 0. -/
theorem release_attempts_unmap_on_unmapped_counterexample :
    zeroState.mem[0]? = some false ∧
    Act.munmapBuf 0 0 ∈ quitP okDev zeroState := by
  decide

/-- Witness for C7's amended theorem at concrete inputs: slot 0's unmap
attempt is in the teardown of the never-streamed state, and the memory
effect is idempotent there. -/
theorem release_attempts_all_slots_effect_idempotent_witness :
    (0 < NUMBUFS ∧ Act.munmapBuf 0 zeroState.bufLength ∈ quitP okDev zeroState) ∧
    memAfterQuit { zeroState with mem := memAfterQuit zeroState } = memAfterQuit zeroState :=
  ⟨⟨by decide, release_attempts_all_slots_effect_idempotent.1 okDev zeroState 0 (by decide)⟩,
   release_attempts_all_slots_effect_idempotent.2.2 zeroState⟩

/-! ## Descriptor bookkeeping (claim C8) -/

/-- Both branches of `initOpen` store `open`'s result in `state.fd`. -/
theorem initOpen_fd (d : Device) : (initOpen d).1.fd = d.openRes := by
  by_cases h : d.openRes < 0 <;> simp [initOpen, h]

/-- `initCaps` does not modify the state. -/
theorem initCaps_state (d : Device) (s : CState) (tr : List Act) :
    (initCaps d s tr).1 = s := by
  simp only [initCaps]
  split_ifs <;> rfl

/-- `initFormat` does not modify the stored descriptor. -/
theorem initFormat_fd (d : Device) (a0 : Args) (s : CState) (tr : List Act) :
    (initFormat d a0 s tr).2.1.fd = s.fd := by
  by_cases h : d.sFmtOk <;> simp [initFormat, h]

/-- `initReqbufs` does not modify the stored descriptor. -/
theorem initReqbufs_fd (d : Device) (s : CState) (tr : List Act) :
    (initReqbufs d s tr).1.fd = s.fd := by
  by_cases h : d.reqbufsOk <;> simp [initReqbufs, h]

/-- The query-and-map loop does not modify the stored descriptor. -/
theorem mapBufsLoop_fd (d : Device) :
    ∀ n i s tr, (mapBufsLoop d n i s tr).1.fd = s.fd := by
  intro n
  induction n with
  | zero => intro i s tr; rfl
  | succ n ih =>
    intro i s tr
    by_cases hq : d.querybufOk i <;> by_cases hm : d.mmapOk i <;>
      simp [mapBufsLoop, hq, hm, ih]

/-- The initial queueing loop does not modify the stored descriptor. -/
theorem queueBufsLoop_fd (d : Device) :
    ∀ n i s tr, (queueBufsLoop d n i s tr).1.fd = s.fd := by
  intro n
  induction n with
  | zero => intro i s tr; rfl
  | succ n ih =>
    intro i s tr
    by_cases hq : d.initQbufOk i <;> simp [queueBufsLoop, hq, ih]

/-- `initSdl` does not modify the stored descriptor. -/
theorem initSdl_fd (d : Device) (s : CState) (tr : List Act) :
    (initSdl d s tr).1.fd = s.fd := by
  by_cases h1 : d.sdlInitOk <;> by_cases h2 : d.createWROk <;> simp [initSdl, h1, h2]

/-- On every path — success or failure at any stage — the state `init`
hands back stores `open`'s result in `fd`. -/
theorem initP_fd (d : Device) (a : Args) : (initP d a).1.fd = d.openRes := by
  rcases h1 : initOpen d with ⟨s1, tr1, ok1⟩
  have hfd1 : s1.fd = d.openRes := by have := initOpen_fd d; rw [h1] at this; exact this
  cases ok1 with
  | false => simpa [initP, h1] using hfd1
  | true =>
  rcases h2 : initCaps d s1 tr1 with ⟨s2, tr2, ok2⟩
  have hfd2 : s2.fd = d.openRes := by
    have := initCaps_state d s1 tr1; rw [h2] at this; simp at this; rw [this]; exact hfd1
  cases ok2 with
  | false => simpa [initP, h1, h2] using hfd2
  | true =>
  rcases h3 : initFormat d a s2 tr2 with ⟨a3, s3, tr3, ok3⟩
  have hfd3 : s3.fd = d.openRes := by
    have := initFormat_fd d a s2 tr2; rw [h3] at this; simp at this; rw [this]; exact hfd2
  cases ok3 with
  | false => simpa [initP, h1, h2, h3] using hfd3
  | true =>
  rcases h4 : initReqbufs d s3 tr3 with ⟨s4, tr4, ok4⟩
  have hfd4 : s4.fd = d.openRes := by
    have := initReqbufs_fd d s3 tr3; rw [h4] at this; simp at this; rw [this]; exact hfd3
  cases ok4 with
  | false => simpa [initP, h1, h2, h3, h4] using hfd4
  | true =>
  rcases h5 : mapBufsLoop d NUMBUFS 0 s4 tr4 with ⟨s5, tr5, ok5⟩
  have hfd5 : s5.fd = d.openRes := by
    have := mapBufsLoop_fd d NUMBUFS 0 s4 tr4; rw [h5] at this; simp at this; rw [this]; exact hfd4
  cases ok5 with
  | false => simpa [initP, h1, h2, h3, h4, h5] using hfd5
  | true =>
  rcases h6 : queueBufsLoop d NUMBUFS 0 s5 tr5 with ⟨s6, tr6, ok6⟩
  have hfd6 : s6.fd = d.openRes := by
    have := queueBufsLoop_fd d NUMBUFS 0 s5 tr5; rw [h6] at this; simp at this; rw [this]; exact hfd5
  cases ok6 with
  | false => simpa [initP, h1, h2, h3, h4, h5, h6] using hfd6
  | true =>
  rcases h7 : initStream d s6 tr6 with ⟨s7, tr7, ok7⟩
  have hfd7 : s7.fd = d.openRes := by
    have := initStream_state d s6 tr6; rw [h7] at this; simp at this; rw [this]; exact hfd6
  cases ok7 with
  | false => simpa [initP, h1, h2, h3, h4, h5, h6, h7] using hfd7
  | true =>
  have : (initP d a).1 = (initSdl d s7 tr7).1 := by
    simp [initP, h1, h2, h3, h4, h5, h6, h7]
  rw [this, initSdl_fd]
  exact hfd7

/-- `init`'s first block records no `close` call. -/
theorem initOpen_no_close (d : Device) : ∀ x, Act.closeFd x ∉ (initOpen d).2.1 := by
  intro x; by_cases h : d.openRes < 0 <;> simp [initOpen, h]

/-- `initCaps` records no `close` call. -/
theorem initCaps_no_close (d : Device) (s : CState) (tr : List Act)
    (h : ∀ x, Act.closeFd x ∉ tr) : ∀ x, Act.closeFd x ∉ (initCaps d s tr).2.1 := by
  intro x
  simp only [initCaps]
  split_ifs <;> simp [h x]

/-- `initFormat` records no `close` call. -/
theorem initFormat_no_close (d : Device) (a0 : Args) (s : CState) (tr : List Act)
    (h : ∀ x, Act.closeFd x ∉ tr) : ∀ x, Act.closeFd x ∉ (initFormat d a0 s tr).2.2.1 := by
  intro x
  simp only [initFormat]
  split_ifs <;> simp [h x]

/-- `initReqbufs` records no `close` call. -/
theorem initReqbufs_no_close (d : Device) (s : CState) (tr : List Act)
    (h : ∀ x, Act.closeFd x ∉ tr) : ∀ x, Act.closeFd x ∉ (initReqbufs d s tr).2.1 := by
  intro x
  simp only [initReqbufs]
  split_ifs <;> simp [h x]

/-- The query-and-map loop records no `close` call. -/
theorem mapBufsLoop_no_close (d : Device) :
    ∀ n i s tr, (∀ x, Act.closeFd x ∉ tr) →
      ∀ x, Act.closeFd x ∉ (mapBufsLoop d n i s tr).2.1 := by
  intro n
  induction n with
  | zero => intro i s tr h x; simpa [mapBufsLoop] using h x
  | succ n ih =>
    intro i s tr h x
    by_cases hq : d.querybufOk i
    · by_cases hm : d.mmapOk i
      · simp only [mapBufsLoop, hq, hm, if_true]
        exact ih (i + 1) _ _ (by intro y; simp [h y]) x
      · simp [mapBufsLoop, hq, hm, h x]
    · simp [mapBufsLoop, hq, h x]

/-- The initial queueing loop records no `close` call. -/
theorem queueBufsLoop_no_close (d : Device) :
    ∀ n i s tr, (∀ x, Act.closeFd x ∉ tr) →
      ∀ x, Act.closeFd x ∉ (queueBufsLoop d n i s tr).2.1 := by
  intro n
  induction n with
  | zero => intro i s tr h x; simpa [queueBufsLoop] using h x
  | succ n ih =>
    intro i s tr h x
    by_cases hq : d.initQbufOk i
    · simp only [queueBufsLoop, hq, if_true]
      exact ih (i + 1) _ _ (by intro y; simp [h y]) x
    · simp [queueBufsLoop, hq, h x]

/-- `initStream` records no `close` call. -/
theorem initStream_no_close (d : Device) (s : CState) (tr : List Act)
    (h : ∀ x, Act.closeFd x ∉ tr) : ∀ x, Act.closeFd x ∉ (initStream d s tr).2.1 := by
  intro x
  simp only [initStream]
  split_ifs <;> simp [h x]

/-- `initSdl` records no `close` call. -/
theorem initSdl_no_close (d : Device) (s : CState) (tr : List Act)
    (h : ∀ x, Act.closeFd x ∉ tr) : ∀ x, Act.closeFd x ∉ (initSdl d s tr).2.1 := by
  intro x
  simp only [initSdl]
  split_ifs <;> simp [h x]

/-- `init` never calls `close` on any path. -/
theorem initP_no_close (d : Device) (a : Args) :
    ∀ x, Act.closeFd x ∉ (initP d a).2.1 := by
  rcases h1 : initOpen d with ⟨s1, tr1, ok1⟩
  have hc1 : ∀ x, Act.closeFd x ∉ tr1 := by
    have := initOpen_no_close d; rw [h1] at this; simpa using this
  cases ok1 with
  | false => intro x; simpa [initP, h1] using hc1 x
  | true =>
  rcases h2 : initCaps d s1 tr1 with ⟨s2, tr2, ok2⟩
  have hc2 : ∀ x, Act.closeFd x ∉ tr2 := by
    have := initCaps_no_close d s1 tr1 hc1; rw [h2] at this; simpa using this
  cases ok2 with
  | false => intro x; simpa [initP, h1, h2] using hc2 x
  | true =>
  rcases h3 : initFormat d a s2 tr2 with ⟨a3, s3, tr3, ok3⟩
  have hc3 : ∀ x, Act.closeFd x ∉ tr3 := by
    have := initFormat_no_close d a s2 tr2 hc2; rw [h3] at this; simpa using this
  cases ok3 with
  | false => intro x; simpa [initP, h1, h2, h3] using hc3 x
  | true =>
  rcases h4 : initReqbufs d s3 tr3 with ⟨s4, tr4, ok4⟩
  have hc4 : ∀ x, Act.closeFd x ∉ tr4 := by
    have := initReqbufs_no_close d s3 tr3 hc3; rw [h4] at this; simpa using this
  cases ok4 with
  | false => intro x; simpa [initP, h1, h2, h3, h4] using hc4 x
  | true =>
  rcases h5 : mapBufsLoop d NUMBUFS 0 s4 tr4 with ⟨s5, tr5, ok5⟩
  have hc5 : ∀ x, Act.closeFd x ∉ tr5 := by
    have := mapBufsLoop_no_close d NUMBUFS 0 s4 tr4 hc4; rw [h5] at this; simpa using this
  cases ok5 with
  | false => intro x; simpa [initP, h1, h2, h3, h4, h5] using hc5 x
  | true =>
  rcases h6 : queueBufsLoop d NUMBUFS 0 s5 tr5 with ⟨s6, tr6, ok6⟩
  have hc6 : ∀ x, Act.closeFd x ∉ tr6 := by
    have := queueBufsLoop_no_close d NUMBUFS 0 s5 tr5 hc5; rw [h6] at this; simpa using this
  cases ok6 with
  | false => intro x; simpa [initP, h1, h2, h3, h4, h5, h6] using hc6 x
  | true =>
  rcases h7 : initStream d s6 tr6 with ⟨s7, tr7, ok7⟩
  have hc7 : ∀ x, Act.closeFd x ∉ tr7 := by
    have := initStream_no_close d s6 tr6 hc6; rw [h7] at this; simpa using this
  cases ok7 with
  | false => intro x; simpa [initP, h1, h2, h3, h4, h5, h6, h7] using hc7 x
  | true =>
  have : (initP d a).2.1 = (initSdl d s7 tr7).2.1 := by
    simp [initP, h1, h2, h3, h4, h5, h6, h7]
  rw [this]
  exact initSdl_no_close d s7 tr7 hc7

/-- `render` never calls `close`. -/
theorem render_no_close (s : CState) (e : FrameEnv) :
    ∀ x, Act.closeFd x ∉ (render s e).2 := by
  intro x
  cases hd : e.dqbufResult with
  | none => simp [render, hd]
  | some i =>
    by_cases hp : Int.tdiv e.pitch s.width = 2 <;> cases hq : e.qbufOk <;>
      simp [render, hd, hp, hq]

/-- The main loop never calls `close`. -/
theorem mainLoop_no_close : ∀ (ticks : List Tick) (s : CState) (x : Int),
    Act.closeFd x ∉ (mainLoop s ticks).2 := by
  intro ticks
  induction ticks with
  | nil => intro s x; simp [mainLoop]
  | cons t ts ih =>
    intro s x
    by_cases hq : s.quit
    · simp [mainLoop, hq]
    · simp only [mainLoop, hq, if_false, List.mem_append, Bool.false_eq_true]
      push_neg
      exact ⟨render_no_close _ _ x, ih _ x⟩

/-- `handle_events` only touches the quit flag, never the descriptor. -/
theorem handleEvents_fd (es : List SdlEvent) : ∀ s : CState,
    (handleEvents s es).fd = s.fd := by
  induction es with
  | nil => intro s; rfl
  | cons e rest ih =>
    intro s
    show (handleEvents (handleEvent s e) rest).fd = s.fd
    rw [ih]
    cases e with
    | quitEv => rfl
    | keyDown c => by_cases h : c = 'q' <;> simp [handleEvent, h]
    | otherEv => rfl

/-- `render` never touches the descriptor. -/
theorem render_fd (s : CState) (e : FrameEnv) : (render s e).1.fd = s.fd := by
  cases hd : e.dqbufResult <;> simp [render, hd]

/-- The main loop never touches the descriptor. -/
theorem mainLoop_fd : ∀ (ticks : List Tick) (s : CState),
    (mainLoop s ticks).1.fd = s.fd := by
  intro ticks
  induction ticks with
  | nil => intro s; rfl
  | cons t ts ih =>
    intro s
    by_cases hq : s.quit
    · simp [mainLoop, hq]
    · simp only [mainLoop, hq, if_false, Bool.false_eq_true]
      rw [ih, render_fd, handleEvents_fd]

/-- Claim C8 (amended): teardown passes the stored descriptor to `close`
exactly when it is nonzero — the guard is `if (s->fd)`, a nonzero test.
Hence (1) in any teardown, `close` is invoked iff `fd ≠ 0`, only ever on the
stored descriptor, and exactly once when invoked; and (2) over a whole run
(`main`), for any device whose `open` result is nonzero — including the
failed-open sentinel −1 — `close` is invoked on that stored value exactly
once, since neither `init` nor the frame loop ever calls `close`.  (After a
failed open this is a harmless `close(-1)`, which fails with `EBADF` and
releases no descriptor; a successful open with a positive descriptor is
closed exactly once.) -/
theorem close_invoked_iff_fd_nonzero :
    (∀ (d : Device) (s : CState),
      (Act.closeFd s.fd ∈ quitP d s ↔ s.fd ≠ 0) ∧
      (∀ f, Act.closeFd f ∈ quitP d s → f = s.fd) ∧
      List.count (Act.closeFd s.fd) (quitP d s) = if s.fd ≠ 0 then 1 else 0) ∧
    (∀ (d : Device) (a : Args) (ticks : List Tick), d.openRes ≠ 0 →
      List.count (Act.closeFd d.openRes) (mainP d a ticks).1 = 1) := by
  have hquit : ∀ (d : Device) (s : CState),
      (Act.closeFd s.fd ∈ quitP d s ↔ s.fd ≠ 0) ∧
      (∀ f, Act.closeFd f ∈ quitP d s → f = s.fd) ∧
      List.count (Act.closeFd s.fd) (quitP d s) = if s.fd ≠ 0 then 1 else 0 := by
    intro d s
    have hmap : ∀ f, List.count (Act.closeFd f)
        ((List.range NUMBUFS).map (fun i => Act.munmapBuf i s.bufLength)) = 0 :=
      fun f => List.count_eq_zero.2 (by simp)
    by_cases hfd : s.fd = 0 <;>
      by_cases h1 : d.streamoffOk <;> by_cases h2 : s.texture <;>
        by_cases h3 : s.renderer <;> by_cases h4 : s.window <;>
          simp [quitP, hfd, h1, h2, h3, h4, List.count_append, hmap, List.count_cons]
  refine ⟨hquit, ?_⟩
  intro d a ticks h0
  by_cases hok : (initP d a).2.2 = true
  · have htr : (mainP d a ticks).1
        = (initP d a).2.1 ++ (mainLoop (initP d a).1 ticks).2
            ++ quitP d (mainLoop (initP d a).1 ticks).1 := by
      simp [mainP, hok, List.append_assoc]
    have hfd : (mainLoop (initP d a).1 ticks).1.fd = d.openRes := by
      rw [mainLoop_fd, initP_fd]
    rw [htr, List.count_append, List.count_append]
    rw [List.count_eq_zero.2 (initP_no_close d a d.openRes),
      List.count_eq_zero.2 (mainLoop_no_close ticks (initP d a).1 d.openRes)]
    have := (hquit d (mainLoop (initP d a).1 ticks).1).2.2
    rw [hfd] at this
    rw [this, if_pos h0]
  · have htr : (mainP d a ticks).1 = (initP d a).2.1 ++ quitP d (initP d a).1 := by
      simp [mainP, hok]
    rw [htr, List.count_append,
      List.count_eq_zero.2 (initP_no_close d a d.openRes)]
    have := (hquit d (initP d a).1).2.2
    rw [initP_fd] at this
    rw [this, if_pos h0]

/-- A device whose `open` fails: `open` returns the sentinel −1. -/
def devOpenFail : Device := { okDev with openRes := -1 }

/-- Counterexample to C8 as stated ("for every execution in which open
failed, teardown does not close any descriptor"): with `open` returning −1,
`init` fails immediately, yet the full run's teardown still invokes
`close(-1)` — the guard `if (s->fd)` passes because the sentinel −1 is
nonzero. -/
theorem failed_open_still_invokes_close_counterexample :
    (initP devOpenFail defaultArgs).2.2 = false ∧
    Act.closeFd (-1) ∈ (mainP devOpenFail defaultArgs []).1 := by
  decide

/-- Witness for C8's amended theorem: a concrete successful run closes the
(positive) descriptor 3 exactly once. -/
theorem close_invoked_iff_fd_nonzero_witness :
    okDev.openRes ≠ 0 ∧
    List.count (Act.closeFd okDev.openRes) (mainP okDev defaultArgs []).1 = 1 :=
  ⟨by decide, close_invoked_iff_fd_nonzero.2 okDev defaultArgs [] (by decide)⟩

/-- Once the loop index reaches the end of `argv`, the scan stops with the
accumulated state. -/
theorem parseLoop_out (argv : List String) (fuel i : Nat) (a : Args) (evs : List PEvent)
    (h : ¬ i < argv.length) : parseLoop argv fuel i a evs = (a, evs, false) := by
  cases fuel with
  | zero => rfl
  | succ n => simp [parseLoop, h]

/-- Claim C10 (amended): whenever the scanning loop processes one of the
value-taking flags `-d`, `-W`, `-H` *as a flag* in the final argument
position (index `argc − 1`), it fetches `argv[argc]` — the NULL entry,
recorded as `readArg argc none` — without ever checking that a value
argument follows, and for `-W`/`-H` passes that NULL pointer to `atoi`
(recorded as `atoiCall none`).  (The quantification over loop states covers
every way the scan can arrive at the final index; the amendment excludes
command lines where the trailing flag is instead consumed as the *value* of
the preceding flag, in which case no out-of-bounds read occurs — see the
counterexample.) -/
theorem trailing_value_flag_reads_argv_argc (pre : List String) (last : String)
    (a : Args) (evs : List PEvent) (fuel : Nat)
    (hdash : charAt last 0 = '-')
    (hflag : charAt last 1 = 'd' ∨ charAt last 1 = 'W' ∨ charAt last 1 = 'H') :
    PEvent.readArg (pre.length + 1) none
        ∈ (parseLoop (pre ++ [last]) (fuel + 1) pre.length a evs).2.1 ∧
    (charAt last 1 = 'W' ∨ charAt last 1 = 'H' →
      PEvent.atoiCall none
        ∈ (parseLoop (pre ++ [last]) (fuel + 1) pre.length a evs).2.1) := by
  have hlt : pre.length < (pre ++ [last]).length := by simp
  have hget : (pre ++ [last]).get ⟨pre.length, hlt⟩ = last := by
    simp [List.get_eq_getElem, List.getElem_concat_length]
  have hnone : (pre ++ [last]).get? (pre.length + 1) = none := by
    apply List.get?_eq_none.2
    simp
  rcases hflag with hd | hw | hh
  · constructor
    · simp only [parseLoop, dif_pos hlt, hget, hdash, if_true, hd, if_pos rfl, hnone]
      simp [parseLoop_out]
    · intro hcase
      rw [hd] at hcase
      rcases hcase with h' | h' <;> exact absurd h' (by decide)
  · have hne : ¬ charAt last 1 = 'd' := by rw [hw]; decide
    constructor
    · simp only [parseLoop, dif_pos hlt, hget, hdash, if_true, hne, if_false, hw,
        if_pos rfl, hnone]
      simp [parseLoop_out]
    · intro hcase
      simp only [parseLoop, dif_pos hlt, hget, hdash, if_true, hne, if_false, hw,
        if_pos rfl, hnone]
      simp [parseLoop_out]
  · have hne : ¬ charAt last 1 = 'd' := by rw [hh]; decide
    have hne2 : ¬ charAt last 1 = 'W' := by rw [hh]; decide
    constructor
    · simp only [parseLoop, dif_pos hlt, hget, hdash, if_true, hne, hne2, if_false, hh,
        if_pos rfl, hnone]
      simp [parseLoop_out]
    · intro hcase
      simp only [parseLoop, dif_pos hlt, hget, hdash, if_true, hne, hne2, if_false, hh,
        if_pos rfl, hnone]
      simp [parseLoop_out]

/-- Counterexample to C10 as universally stated: on the command line
`prog -W -d`, the value-taking flag `-d` *is* the final argument, but it is
consumed as the value of `-W` (passed to `atoi`), the loop index jumps past
it, and `argv[argc] = argv[3]` is never read — no out-of-bounds access and
no `atoi(NULL)` happens on this input. -/
theorem value_flag_consumed_no_oob_counterexample :
    (parse_args ["prog", "-W", "-d"]).2.1
        = [PEvent.readArg 2 (some "-d"), PEvent.atoiCall (some "-d")] ∧
    PEvent.readArg 3 none ∉ (parse_args ["prog", "-W", "-d"]).2.1 ∧
    PEvent.atoiCall none ∉ (parse_args ["prog", "-W", "-d"]).2.1 := by
  decide

/-- Witness for C10's amended theorem: `prog -d` — the loop processes `-d`
at the final index 1 and fetches the NULL entry `argv[2]`. -/
theorem trailing_value_flag_reads_argv_argc_witness :
    charAt "-d" 0 = '-' ∧
    PEvent.readArg 2 none ∈ (parseLoop (["prog"] ++ ["-d"]) 2 1 defaultArgs []).2.1 :=
  ⟨by decide,
   (trailing_value_flag_reads_argv_argc ["prog"] "-d" defaultArgs [] 1 (by decide)
     (Or.inl (by decide))).1⟩
